import Mathlib

set_option maxRecDepth 8000

/-!
Shallow embedding of the OCA backend (Graymarch/COSC432-GroupProject):
the RAG retrieval pipeline, the chat and search routes, the session PATCH
route, and the two text chunkers.  JavaScript strings are modelled as
Lean `String`/`List Char`, JS numbers as `Nat`/`Int`/`ℚ` as appropriate,
fallible calls as `Except`, and the `while` loop of
`DocumentService.chunkText` as a fuel-indexed function (`none` = the fuel
ran out, i.e. the loop was still running).
-/

/-- Message role in the LLM chat API. -/
inductive Role where
  | system
  | user
  | assistant
deriving DecidableEq, Repr

/-- One message handed to `llmService.chat`. -/
structure Msg where
  role : Role
  content : String
deriving DecidableEq, Repr

/-- A row of the `document_chunks` table (supabase-schema, `CREATE TABLE document_chunks`).
`embedding` is the stored pgvector value. -/
structure StoredChunk where
  id : Nat
  document_name : String
  «section» : Option String
  page_number : Option Nat
  chunk_text : String
  chunk_index : Nat
  embedding : List ℚ
deriving DecidableEq, Repr

/-- A row returned by the SQL function `match_documents` (its `RETURNS TABLE`). -/
structure MatchRow where
  id : Nat
  document_name : String
  «section» : Option String
  page_number : Option Nat
  chunk_text : String
  chunk_index : Nat
  similarity : ℚ
deriving DecidableEq, Repr

/-- A row of the `sessions` table.  Timestamps are the ISO strings the
routes produce with `new Date().toISOString()`. -/
structure SessionRow where
  id : String
  student_id : String
  mode : String
  created_at : String
  last_activity : String
  context : String
deriving DecidableEq, Repr

/-- A row of the `interactions` table.  `timestamp` is the database-assigned
`TIMESTAMPTZ DEFAULT NOW()`, modelled as a `Nat` instant. -/
structure InteractionRow where
  student_id : String
  session_id : String
  mode : String
  user_message : String
  assistant_response : String
  retrieved_chunk_ids : List Nat
  timestamp : Nat
deriving DecidableEq, Repr

/-- The Supabase datastore visible to the routes: its tables plus whether the
hosted service can currently be reached (an unreachable service makes every
call yield an error object / throw). -/
structure Db where
  sessions : List SessionRow
  interactions : List InteractionRow
  document_chunks : List StoredChunk
  reachable : Bool
deriving DecidableEq, Repr

/-- The SQL function `match_documents(query_embedding, match_threshold, match_count)`
from the schema file.  `cosDist` is pgvector's `<=>` cosine-distance operator
(external to the repository), passed in as a parameter; the similarity the
function computes is `1 - (embedding <=> query_embedding)`.  The body is
`SELECT ... WHERE 1 - (embedding <=> q) > match_threshold
ORDER BY embedding <=> q LIMIT match_count`. -/
def match_documents (cosDist : List ℚ → List ℚ → ℚ) (document_chunks : List StoredChunk)
    (query_embedding : List ℚ) (match_threshold : ℚ) (match_count : Nat) : List MatchRow :=
  ((((document_chunks.filter
      (fun r => match_threshold < 1 - cosDist r.embedding query_embedding)).insertionSort
      (fun a b => cosDist a.embedding query_embedding ≤ cosDist b.embedding query_embedding)).take
      match_count).map
      (fun r => { id := r.id, document_name := r.document_name, «section» := r.«section»,
                  page_number := r.page_number, chunk_text := r.chunk_text,
                  chunk_index := r.chunk_index,
                  similarity := 1 - cosDist r.embedding query_embedding }))

/-- Options object of `RAGService.retrieveRelevantChunks`, with the defaults
from its destructuring (`topK = 5`, `threshold = 0.7`, `mode = 'tutoring'`). -/
structure RetrieveOptions where
  topK : Nat := 5
  threshold : ℚ := 7/10
  mode : String := "tutoring"
deriving DecidableEq, Repr

/-- `RAGService.retrieveRelevantChunks(query, options)` (services/ragService.js).
`supabase` is the client singleton (`none` = not configured), `embedOutcome`
the result of `embeddingService.generateEmbedding(query)` for this request.
If Supabase is not configured it returns `[]`; otherwise an embedding failure
or an RPC error is wrapped as `RAG retrieval error: ...` and thrown; a
successful RPC returns `data || []`. -/
def RAGService.retrieveRelevantChunks (cosDist : List ℚ → List ℚ → ℚ)
    (supabase : Option Db) (embedOutcome : Except String (List ℚ))
    (opts : RetrieveOptions) : Except String (List MatchRow) :=
  match supabase with
  | none => .ok []
  | some db =>
    match embedOutcome with
    | .error msg => .error ("RAG retrieval error: " ++ msg)
    | .ok queryEmbedding =>
      if db.reachable then
        .ok (match_documents cosDist db.document_chunks queryEmbedding
              opts.threshold opts.topK)
      else
        .error ("RAG retrieval error: " ++ "TypeError: fetch failed")

/-- The history read in routes/chat.js: `from('interactions')
.select(...).eq('session_id', sessionId).order('timestamp', ascending true)
.limit(10)` — the rows of the session in ascending timestamp order, truncated
to the first `lim` of them. -/
def historyQuery (interactions : List InteractionRow) (sessionId : String)
    (lim : Nat) : List InteractionRow :=
  (((interactions.filter (fun r => r.session_id == sessionId)).insertionSort
      (fun a b => a.timestamp ≤ b.timestamp)).take lim)

/-- Text of the tutoring-mode system prompt template (routes/chat.js) up to the
`context` interpolation point. -/
def chatPromptHead : String :=
  "\nINSRUCTION: \nYou are an out-of-classroom learning and teaching aid for COSC432 - Requirements Analysis and Modeling. \nYou follow Dr. Chakraborty's teaching philosophy.\n\nCONTEXT FROM COURSE MATERIAL:\n"

/-- Text of the tutoring-mode system prompt template (routes/chat.js) after the
`context` interpolation point. -/
def chatPromptTail : String :=
  "\n\nGUIDELINES:\n1. Identify if the question is assignment/exam related. If so, help with concepts but avoid providing answers.\n2. Reference specific course materials when explaining concepts and site where it can be found when possible.\n3. If non-academic, redirect to course-related topics.\n4. Respond in a style that encourages learning through discovery.\n5. Use the conversation history to maintain context and build upon previous discussion.\n6. Format your responses, use newlines and numbered lists instead of markdown shortcuts as markdown will not be formatted and overclutters results.7. Keep your responses as brief as you may believe is reasonable unless a more detailed response is necessary, or the user asks for a more detailed answer.\n8. If deemed necessary to provide a more precise answer, use leading questions to assess the student's comprehension level and maintain current conversation.\n\nEXAMPLE:\n  [A student begins a converstaion with you with the following]  \n    Hi! I am new to requirements engineering and would like to know what to expect from a college course about it.\n\n  [Your response should look something like this]\n    I'm so glad to hear that you are beginning to learn Requirements Engineering.\n\n\n    Before we get into the details, let's do a small overview of a Requirements Engineering course syllabus:\n\n     \t 1. What is a Requirement?\n\n         \t\t The Requirements Engineering (RE) Lifecycle\n\n         \t\t How RE flows through the Software Development Lifecycle (SDLC)\n\n     \t 2. RE within the SDLC\n\n         \t\t Techniques and Tools\n\n\n  [Continue on until you go over the syallabus, but take note of how the use of newlines, indentation, and numbered lists makes the result easier to read for the student, you may want to add escape characters in your response to have messages reflect the structure above.]\n\nEXAMPLE:\n  [A student write the following to you in the middle of a conversation]\n    Can you show me what a Business Use Case looks like in the following scenario:\n      [The student uses a scenario found in an exam within your vector database]\n  \n [Your response should look something like this]\n    I see that this example is part of course material, more specifically one of the exams.\n\n    While I won't give you what a Business Use Cases looks like in that scenario, I can help you find out how to identity and build one.\n\n    [From this point, you list how Business Use Cases and be identified and created. From this example, consider the language used to still be an assist to the student, but not outright give them the solution to the question.]\n"

/-- Fallback system prompt of the search route when no chunks were retrieved. -/
def searchFallbackPrompt : String :=
  "You are an interactive teaching assistant for COSC432 (Requirements Analysis and Modeling).\nYour role is to help students understand course concepts.\n\nINSTRUCTIONS:\n1. Provide a helpful response about the requested topic if it relates to COSC432.\n2. Explain the concept clearly using general knowledge about requirements analysis.\n3. If the query is not related to COSC432, politely decline and redirect to course topics.\n4. Be encouraging and supportive in your teaching style."

/-- Text of the search-route RAG system prompt up to the `context` interpolation point. -/
def searchPromptHead : String :=
  "You are an interactive teaching assistant for COSC432. Your role is to help students find and understand course information.\n\nRELEVANT COURSE MATERIAL:\n"

/-- Text of the search-route RAG system prompt after the `context` interpolation point. -/
def searchPromptTail : String :=
  "\n\nINSTRUCTIONS:\n1. Summarize the relevant information clearly and concisely.\n2. Provide specific references to course materials.\n3. Highlight key concepts and their relationships.\n4. Keep the summary focused and actionable.\n5. Format your response with clear structure and citations."

/-- JS truthiness test for an optional string field of a JSON body:
`!x` is true when the field is absent (`undefined`) or the empty string. -/
def jsFalsyStr : Option String → Bool
  | none => true
  | some s => s.isEmpty

/-- How a JS template literal renders a possibly-null string column. -/
def jsShowOptStr : Option String → String
  | some s => s
  | none => "null"

/-- How a JS template literal renders a possibly-null integer column. -/
def jsShowOptNat : Option Nat → String
  | some n => toString n
  | none => "null"

/-- JS `a || b` on strings: the empty string is falsy. -/
def jsOr (a b : String) : String := if a.isEmpty then b else a

/-- The provenance-tagged rendering of one retrieved chunk, as built in both
routes: `[$(document_name), Section: $(section), Page: $(page_number)]\n$(chunk_text)`. -/
def chunkTag (c : MatchRow) : String :=
  "[" ++ c.document_name ++ ", Section: " ++ jsShowOptStr c.«section» ++
    ", Page: " ++ jsShowOptNat c.page_number ++ "]\n" ++ c.chunk_text

/-- JS `Array.prototype.join(sep)`: empty array gives `''`, otherwise the
elements folded left with the separator between them. -/
def jsJoin (sep : String) : List String → String
  | [] => ""
  | a :: as => as.foldl (fun acc x => acc ++ sep ++ x) a

/-- `relevantChunks.map(chunk => ...).join('\n\n')` — the context block. -/
def buildContext (chunks : List MatchRow) : String :=
  jsJoin "\n\n" (chunks.map chunkTag)

/-- The session-ensuring step shared by the chat and search routes: look the
session id up; when the store is reachable and no such session exists, insert
a fresh row carrying the request's (possibly defaulted) student id.  Any
failure here is swallowed by the route (`// Continue anyway`), so the step is
modelled by the row it inserts, if any. -/
def ensureSession (supabase : Option Db) (sessionId userId mode nowIso : String) :
    Option SessionRow :=
  match supabase with
  | none => none
  | some db =>
    if db.reachable && !(db.sessions.any (fun s => s.id == sessionId)) then
      some { id := sessionId, student_id := userId, mode := mode,
             created_at := nowIso, last_activity := nowIso, context := "\x7b\x7d" }
    else none

/-- The conversation-history rows the chat route sees: the history query when
Supabase is configured and reachable, `[]` otherwise (history failures only
warn and `// Continue without history`). -/
def chatHistoryRows (supabase : Option Db) (sessionId : String) : List InteractionRow :=
  match supabase with
  | none => []
  | some db => if db.reachable then historyQuery db.interactions sessionId 10 else []

/-- Body of `POST /api/chat`. -/
structure ChatRequestBody where
  message : Option String := none
  sessionId : Option String := none
  studentId : Option String := none
deriving DecidableEq, Repr

deriving instance DecidableEq for Except

/-- The external world one chat/search request runs against: the Supabase
singleton, the uuid `uuidv4()` would mint, the ISO timestamp of `new Date()`,
the instant the database would stamp on an inserted interaction, the outcome
of the embedding call for this request's query, and the text fragments the
LLM generator yields before its stream ends (ending after fewer fragments
than expected models an early-terminated stream). -/
structure ChatEnv where
  supabase : Option Db
  freshUuid : String
  nowIso : String
  dbNow : Nat
  embedOutcome : Except String (List ℚ)
  llmFragments : List String
deriving DecidableEq, Repr

/-- HTTP-level failure of the chat route: a 400 validation rejection, or an
error forwarded to `next(error)` (surfaced as a 5xx). -/
inductive HttpError where
  | badRequest (msg : String)
  | internal (msg : String)
deriving DecidableEq, Repr

/-- Everything observable about a successfully completed chat request. -/
structure ChatSuccess where
  sessionId : String
  userId : String
  createdSession : Option SessionRow
  conversationHistory : List Msg
  relevantChunks : List MatchRow
  systemPrompt : String
  messages : List Msg
  writes : List String
  archiveInsert : Option InteractionRow
deriving DecidableEq, Repr

/-- `router.post('/')` of routes/chat.js.  Validation, session bookkeeping,
history load, RAG retrieval (a thrown retrieval error reaches the route's
`catch` and becomes `next(error)`), prompt assembly, the streaming loop
(`res.write(chunk); fullResponse += chunk` per fragment), and the
fire-and-forget archive insert. -/
def chatHandler (cosDist : List ℚ → List ℚ → ℚ) (env : ChatEnv) (req : ChatRequestBody) :
    Except HttpError ChatSuccess :=
  if jsFalsyStr req.message then
    .error (.badRequest "Missing required field: message is required")
  else
    let message := req.message.getD ""
    let userId := if jsFalsyStr req.studentId then "anonymous" else req.studentId.getD ""
    let sessionId := if jsFalsyStr req.sessionId then env.freshUuid else req.sessionId.getD ""
    let createdSession := ensureSession env.supabase sessionId userId "tutoring" env.nowIso
    let historyRows := chatHistoryRows env.supabase sessionId
    let conversationHistory := historyRows.flatMap (fun r =>
      [{ role := .user, content := r.user_message },
       { role := .assistant, content := r.assistant_response }])
    match RAGService.retrieveRelevantChunks cosDist env.supabase env.embedOutcome
        { mode := "tutoring", topK := 5 } with
    | .error msg => .error (.internal msg)
    | .ok relevantChunks =>
      let context := buildContext relevantChunks
      let systemPrompt := chatPromptHead ++
        jsOr context "No specific course material found for this query." ++ chatPromptTail
      let messages := { role := Role.system, content := systemPrompt } ::
        conversationHistory ++ [{ role := Role.user, content := message }]
      let fullResponse := String.join env.llmFragments
      let archiveInsert : Option InteractionRow :=
        match env.supabase with
        | none => none
        | some _ => some { student_id := userId, session_id := sessionId,
                           mode := "tutoring", user_message := message,
                           assistant_response := fullResponse,
                           retrieved_chunk_ids := relevantChunks.map (·.id),
                           timestamp := env.dbNow }
      .ok { sessionId := sessionId, userId := userId, createdSession := createdSession,
            conversationHistory := conversationHistory, relevantChunks := relevantChunks,
            systemPrompt := systemPrompt, messages := messages,
            writes := env.llmFragments, archiveInsert := archiveInsert }

/-- Body of `POST /api/search`. -/
structure SearchRequestBody where
  query : Option String := none
  sessionId : Option String := none
  studentId : Option String := none
  maxResults : Option Nat := none
deriving DecidableEq, Repr

/-- HTTP-level failure of the search route. -/
inductive SearchError where
  | badRequest (msg : String)
  | serviceUnavailable (msg : String)
  | internal (msg : String)
deriving DecidableEq, Repr

/-- One element of the search response's `sources` array. -/
structure SourceCitation where
  chunkId : Nat
  document : String
  «section» : Option String
  page : Option Nat
  excerpt : String
deriving DecidableEq, Repr

/-- Everything observable about a successfully completed search request. -/
structure SearchSuccess where
  sessionId : String
  userId : String
  createdSession : Option SessionRow
  relevantChunks : List MatchRow
  summary : String
  sources : List SourceCitation
  archiveInsert : Option InteractionRow
deriving DecidableEq, Repr

/-- `chunk.chunk_text.substring(0, 200) + '...'`. -/
def excerptOf (t : String) : String := String.mk (t.toList.take 200) ++ "..."

/-- `router.post('/')` of the search route (info-access mode): validation,
503 when Supabase is unconfigured, session bookkeeping, RAG retrieval with
`topK = maxResults`, then either the general-knowledge fallback (no chunks)
or the RAG summary with formatted sources, and the fire-and-forget archive. -/
def searchHandler (cosDist : List ℚ → List ℚ → ℚ) (env : ChatEnv) (req : SearchRequestBody) :
    Except SearchError SearchSuccess :=
  if jsFalsyStr req.query then
    .error (.badRequest "Missing required field: query is required")
  else
    match env.supabase with
    | none => .error (.serviceUnavailable
        "Course material search is not available until Supabase is configured.")
    | some db =>
      let query := req.query.getD ""
      let maxResults := req.maxResults.getD 5
      let userId := if jsFalsyStr req.studentId then "anonymous" else req.studentId.getD ""
      let sessionId := if jsFalsyStr req.sessionId then env.freshUuid else req.sessionId.getD ""
      let createdSession := ensureSession (some db) sessionId userId "info_access" env.nowIso
      match RAGService.retrieveRelevantChunks cosDist (some db) env.embedOutcome
          { mode := "info_access", topK := maxResults } with
      | .error msg => .error (.internal msg)
      | .ok relevantChunks =>
        let summary := String.join env.llmFragments
        let sources : List SourceCitation :=
          if relevantChunks.isEmpty then []
          else relevantChunks.map (fun c =>
            { chunkId := c.id, document := c.document_name, «section» := c.«section»,
              page := c.page_number, excerpt := excerptOf c.chunk_text })
        let archiveInsert : Option InteractionRow :=
          some { student_id := userId, session_id := sessionId, mode := "info_access",
                 user_message := query, assistant_response := summary,
                 retrieved_chunk_ids := relevantChunks.map (·.id),
                 timestamp := env.dbNow }
        .ok { sessionId := sessionId, userId := userId, createdSession := createdSession,
              relevantChunks := relevantChunks, summary := summary, sources := sources,
              archiveInsert := archiveInsert }

/-- `allowedUpdates` of `router.patch('/:sessionId')` (routes/sessions.js). -/
def allowedUpdates : List String := ["last_activity", "context", "mode"]

/-- `Object.keys(updates).filter(key => allowedUpdates.includes(key)).reduce(...)`:
the body's entries restricted to the allowed keys. -/
def filteredUpdates (updates : List (String × String)) : List (String × String) :=
  updates.filter (fun kv => allowedUpdates.contains kv.1)

/-- Applying one update entry to a session row (the `.update(filteredUpdates)`
database call, one column at a time). -/
def applyUpdate (s : SessionRow) (kv : String × String) : SessionRow :=
  if kv.1 = "last_activity" then { s with last_activity := kv.2 }
  else if kv.1 = "context" then { s with context := kv.2 }
  else if kv.1 = "mode" then { s with mode := kv.2 }
  else s

/-- Outcome of `PATCH /api/sessions/:sessionId`. -/
inductive PatchResult where
  | serviceUnavailable (msg : String)
  | badRequest (msg : String)
  | internal (msg : String)
  | ok (updated : SessionRow)
deriving DecidableEq, Repr

/-- `router.patch('/:sessionId')` of routes/sessions.js: 503 without Supabase;
filter the body down to the allowed keys; 400 when nothing remains; otherwise
update the row (a missing row makes `.single()` yield an error, which the
route throws to `next(error)`). -/
def patchSessionHandler (supabase : Option Db) (sessionId : String)
    (updates : List (String × String)) : PatchResult :=
  match supabase with
  | none => .serviceUnavailable "Session management is unavailable until Supabase is configured."
  | some db =>
    let filtered := filteredUpdates updates
    if filtered.isEmpty then .badRequest "No valid fields to update"
    else
      match db.sessions.find? (fun s => s.id == sessionId) with
      | none => .internal "JSON object requested, multiple (or no) rows returned"
      | some s => .ok (filtered.foldl applyUpdate s)

/-- `CHUNK_SIZE` constant of services/chunky.js. -/
def CHUNK_SIZE : Nat := 800

/-- `CHUNK_OVERLAP` constant of services/chunky.js. -/
def CHUNK_OVERLAP : Nat := 150

/-- The `for` loop of `chunkText` in services/chunky.js, from loop index `i`:
while `i < text.length`, push `text.slice(i, i + CHUNK_SIZE)` and advance `i`
by `CHUNK_SIZE - CHUNK_OVERLAP`. -/
def chunkTextGo (text : List Char) (i : Nat) : List (List Char) :=
  if _h : i < text.length then
    ((text.drop i).take CHUNK_SIZE) :: chunkTextGo text (i + (CHUNK_SIZE - CHUNK_OVERLAP))
  else []
termination_by text.length - i
decreasing_by simp only [CHUNK_SIZE, CHUNK_OVERLAP]; omega

/-- `chunkText(text)` of services/chunky.js. -/
def chunkText (text : List Char) : List (List Char) := chunkTextGo text 0

/-- JS `String.prototype.slice(a, b)`: negative indices count from the end,
then both are clamped to `[0, length]` and the half-open range is taken. -/
def jsSlice (s : List Char) (a b : Int) : List Char :=
  let len : Int := s.length
  let clamp : Int → Nat := fun x => (max 0 (min (if x < 0 then len + x else x) len)).toNat
  (s.take (clamp b)).drop (clamp a)

/-- JS `String.prototype.trim()`: strip whitespace from both ends. -/
def jsTrim (s : List Char) : List Char :=
  ((s.dropWhile Char.isWhitespace).reverse.dropWhile Char.isWhitespace).reverse

namespace DocumentService

/-- The `while (start < text.length)` loop of `DocumentService.chunkText`
(services/documentService.js), fuel-indexed: `none` means the fuel ran out
with the loop still running.  Each pass takes `text.slice(start, end)` with
`end = min(start + chunkSize, text.length)`, pushes the trimmed chunk when it
is non-empty, sets `start = end - overlap`, then applies the
`// Prevent infinite loop if overlap >= chunkSize` clamp
(`if (start <= chunks.length * (chunkSize - overlap)) start = chunks.length *
(chunkSize - overlap)`), and breaks once `start >= text.length`. -/
def chunkTextGo (text : List Char) (chunkSize overlap : Int) (chunks : List (List Char))
    (start : Int) : Nat → Option (List (List Char))
  | 0 => if start < (text.length : Int) then none else some chunks
  | fuel + 1 =>
    if start < (text.length : Int) then
      let e := min (start + chunkSize) (text.length : Int)
      let chunk := jsSlice text start e
      let chunks1 := if 0 < (jsTrim chunk).length then chunks ++ [jsTrim chunk] else chunks
      let start1 := e - overlap
      let start2 :=
        if start1 ≤ (chunks1.length : Int) * (chunkSize - overlap)
        then (chunks1.length : Int) * (chunkSize - overlap) else start1
      if (text.length : Int) ≤ start2 then some chunks1
      else chunkTextGo text chunkSize overlap chunks1 start2 fuel
    else some chunks

/-- `DocumentService.chunkText(text, { chunkSize, overlap })`: the loop started
with `chunks = []`, `start = 0`. -/
def chunkText (text : List Char) (chunkSize overlap : Int) (fuel : Nat) :
    Option (List (List Char)) :=
  chunkTextGo text chunkSize overlap [] 0 fuel

end DocumentService

/-!  Concrete fixtures used by the scenario theorems below. -/

/-- A concrete stand-in for pgvector's cosine-distance operator, used in the
concrete scenarios: distance `1 - <a, b>` (exact for unit vectors). -/
def cosD : List ℚ → List ℚ → ℚ := fun a b => 1 - (List.zipWith (· * ·) a b).sum

/-- A stored course-material chunk. -/
def chunkA : StoredChunk :=
  { id := 11, document_name := "COSC432_Chapter1.pdf",
    «section» := some "1.2 Requirements Analysis", page_number := some 15,
    chunk_text := "Requirements analysis is the process of discovering stakeholder needs.",
    chunk_index := 0, embedding := [1, 0] }

/-- The older of two archived interactions of session `sess-1`. -/
def interaction0 : InteractionRow :=
  { student_id := "anonymous", session_id := "sess-1", mode := "tutoring",
    user_message := "What is a requirement?",
    assistant_response := "Let us start from the definition.",
    retrieved_chunk_ids := [], timestamp := 0 }

/-- The more recent of two archived interactions of session `sess-1`. -/
def interaction1 : InteractionRow :=
  { student_id := "anonymous", session_id := "sess-1", mode := "tutoring",
    user_message := "And elicitation?",
    assistant_response := "Think about who the stakeholders are.",
    retrieved_chunk_ids := [], timestamp := 1 }

/-- A reachable datastore with one stored chunk and two prior interactions. -/
def dbW : Db :=
  { sessions := [], interactions := [interaction0, interaction1],
    document_chunks := [chunkA], reachable := true }

/-- A healthy request environment: Supabase configured and reachable, the
embedder answering `[1, 0]`, the generator yielding three fragments. -/
def envW : ChatEnv :=
  { supabase := some dbW, freshUuid := "uuid-0001",
    nowIso := "2026-02-03T04:05:06.000Z", dbNow := 2,
    embedOutcome := .ok [1, 0], llmFragments := ["Good ", "quest", "ion!"] }

/-- The same environment with Supabase not configured. -/
def envNoSb : ChatEnv := { envW with supabase := none }

/-- The same environment with the embedding service unreachable. -/
def envEmbedDown : ChatEnv :=
  { envW with embedOutcome := .error "connect ECONNREFUSED 127.0.0.1:11434" }

/-- A chat request carrying no `studentId`. -/
def reqW : ChatRequestBody :=
  { message := some "What is requirements analysis?", sessionId := some "sess-1",
    studentId := none }

/-- A search request carrying no `studentId`. -/
def searchReqW : SearchRequestBody :=
  { query := some "requirements modeling", sessionId := some "sess-2",
    studentId := none, maxResults := none }

/-- A datastore holding exactly one session, `sess-9`. -/
def dbP : Db :=
  { sessions := [{ id := "sess-9", student_id := "stu-9", mode := "tutoring",
                   created_at := "2026-01-01T00:00:00.000Z",
                   last_activity := "2026-01-01T00:00:00.000Z", context := "\x7b\x7d" }],
    interactions := [], document_chunks := [], reachable := true }

/-- A PATCH body mixing an unknown field `foo` with the allowed field `mode`. -/
def updBad : List (String × String) := [("foo", "bar"), ("mode", "info_access")]

/-- 2500 characters of text (spec example scenario 1). -/
def aText2500 : List Char := List.replicate 2500 'a'

/-- One letter followed by 650 spaces: its second chunky.js chunk is all
whitespace. -/
def wsTail651 : List Char := 'a' :: List.replicate 650 ' '

/-- The start offsets the chunky.js loop visits for a text of length `len`,
from index `i`: `i, i + (CHUNK_SIZE - CHUNK_OVERLAP), ...` while below `len`. -/
def chunkStartsGo (len i : Nat) : List Nat :=
  if _h : i < len then i :: chunkStartsGo len (i + (CHUNK_SIZE - CHUNK_OVERLAP)) else []
termination_by len - i
decreasing_by simp only [CHUNK_SIZE, CHUNK_OVERLAP]; omega

/-- All start offsets of chunky.js chunks for a text of length `len`. -/
def chunkStarts (len : Nat) : List Nat := chunkStartsGo len 0

/-! Helper lemmas. -/

/-- Folding further strings onto an accumulator never shortens it. -/
theorem foldl_join_length (sep : String) (as : List String) (acc : String) :
    acc.length ≤ (as.foldl (fun b x => b ++ sep ++ x) acc).length := by
  induction as generalizing acc with
  | nil => simp
  | cons a as ih =>
    refine le_trans ?_ (ih (acc ++ sep ++ a))
    simp only [String.length_append]
    omega

/-- A provenance tag is never the empty string. -/
theorem chunkTag_length_pos (c : MatchRow) : 0 < (chunkTag c).length := by
  have h1 : "[".length = 1 := rfl
  simp only [chunkTag, String.length_append]
  omega

/-- The context block built from at least one chunk is non-empty (so the JS
`context || placeholder` keeps it). -/
theorem buildContext_ne_empty (c : MatchRow) (rest : List MatchRow) :
    (buildContext (c :: rest)).isEmpty = false := by
  have h : 0 < (buildContext (c :: rest)).length := by
    have h1 := foldl_join_length "\n\n" (rest.map chunkTag) (chunkTag c)
    have h2 := chunkTag_length_pos c
    simp only [buildContext, jsJoin, List.map_cons]
    omega
  rcases he : (buildContext (c :: rest)).isEmpty with _ | _
  · rfl
  · exfalso
    have : buildContext (c :: rest) = "" := (String.isEmpty_iff _).mp he
    rw [this] at h
    simp at h

/-- C4: every row returned by the SQL function `match_documents` has
similarity strictly greater than the threshold, the returned list is sorted
descending by similarity, and its length never exceeds `match_count` (topK). -/
theorem c4_match_documents_threshold_sorted_topk
    (cosDist : List ℚ → List ℚ → ℚ) (table : List StoredChunk)
    (q : List ℚ) (threshold : ℚ) (topK : Nat) :
    (∀ r ∈ match_documents cosDist table q threshold topK, threshold < r.similarity) ∧
    (match_documents cosDist table q threshold topK).Sorted
      (fun a b => b.similarity ≤ a.similarity) ∧
    (match_documents cosDist table q threshold topK).length ≤ topK := by
  refine ⟨?_, ?_, ?_⟩
  · intro r hr
    simp only [match_documents, List.mem_map] at hr
    obtain ⟨s, hs, rfl⟩ := hr
    have hs1 : s ∈ (table.filter
        (fun r => threshold < 1 - cosDist r.embedding q)).insertionSort
        (fun a b => cosDist a.embedding q ≤ cosDist b.embedding q) :=
      List.mem_of_mem_take hs
    rw [List.mem_insertionSort] at hs1
    have := (List.mem_filter.mp hs1).2
    simpa using this
  · have hsorted : ((table.filter
        (fun r => threshold < 1 - cosDist r.embedding q)).insertionSort
        (fun a b => cosDist a.embedding q ≤ cosDist b.embedding q)).Sorted
        (fun a b => cosDist a.embedding q ≤ cosDist b.embedding q) := by
      haveI : IsTotal StoredChunk
          (fun a b => cosDist a.embedding q ≤ cosDist b.embedding q) :=
        ⟨fun a b => le_total _ _⟩
      haveI : IsTrans StoredChunk
          (fun a b => cosDist a.embedding q ≤ cosDist b.embedding q) :=
        ⟨fun _ _ _ => le_trans⟩
      exact List.sorted_insertionSort _ _
    have htake := List.Pairwise.sublist (List.take_sublist topK _) hsorted
    simp only [match_documents, List.Sorted, List.pairwise_map]
    refine htake.imp ?_
    intro a b hab
    simpa using sub_le_sub_left hab 1
  · simp only [match_documents, List.length_map, List.length_take]
    exact Nat.min_le_left _ _

/-- C2 (divergence evidence): on a session with interactions at timestamps 0
and 1, the chat route's history query with limit 1 returns the interaction
with timestamp 0 — the OLDEST — although the most recent interaction of the
session is the one with timestamp 1. -/
theorem c2_history_takes_oldest_not_most_recent :
    (historyQuery dbW.interactions "sess-1" 1).map (fun r => r.timestamp) = [0] ∧
    interaction1 ∈ dbW.interactions ∧ interaction1.session_id = "sess-1" ∧
    interaction1.timestamp = 1 ∧
    (∀ r ∈ dbW.interactions, r.timestamp ≤ 1) := by decide

/-- C9 (counterexample): a PATCH body containing the unknown field `foo`
alongside the allowed field `mode` is NOT rejected — the handler silently
drops `foo` and applies the update with only the filtered field. -/
theorem c9_counterexample_unknown_field_not_rejected :
    patchSessionHandler (some dbP) "sess-9" updBad =
      .ok { id := "sess-9", student_id := "stu-9", mode := "info_access",
            created_at := "2026-01-01T00:00:00.000Z",
            last_activity := "2026-01-01T00:00:00.000Z", context := "\x7b\x7d" } := by
  decide

/-- C9 (amended): unknown body fields are silently filtered out — the handler
behaves exactly as if it had been given only the allowed fields — and the
400 "No valid fields to update" rejection happens precisely when the body
contains no allowed field at all. -/
theorem c9_amended_unknown_fields_filtered (db : Db) (sid : String)
    (updates : List (String × String)) :
    patchSessionHandler (some db) sid updates =
      patchSessionHandler (some db) sid (filteredUpdates updates) ∧
    (filteredUpdates updates = [] ↔
      patchSessionHandler (some db) sid updates =
        .badRequest "No valid fields to update") := by
  have hff : filteredUpdates (filteredUpdates updates) = filteredUpdates updates := by
    simp [filteredUpdates, List.filter_filter]
  constructor
  · simp only [patchSessionHandler, hff]
  · constructor
    · intro h
      simp [patchSessionHandler, h]
    · intro h
      cases hfe : (filteredUpdates updates).isEmpty with
      | true => exact List.isEmpty_iff.mp hfe
      | false =>
        exfalso
        simp only [patchSessionHandler, hfe, Bool.false_eq_true, if_false] at h
        rcases hf : db.sessions.find? (fun s => s.id == sid) with _ | s <;>
          simp [hf] at h

/-- C1 (counterexample): with Supabase configured but the embedding service
unreachable, the thrown `RAG retrieval error` propagates out of the chat
route — the request fails instead of soft-degrading to an empty chunk list. -/
theorem c1_counterexample_embedder_failure_fails_request :
    chatHandler cosD envEmbedDown reqW =
      .error (.internal "RAG retrieval error: connect ECONNREFUSED 127.0.0.1:11434") := by
  rfl

/-- C1 (amended): the chat route soft-degrades — `retrieveRelevantChunks`
returns `[]` and the request completes with the "no material found"
placeholder in the system prompt — only when Supabase is NOT CONFIGURED;
when the embedder errors during the call, the wrapped error propagates and
the request fails. -/
theorem c1_amended_soft_degrade_only_when_unconfigured
    (cosDist : List ℚ → List ℚ → ℚ) (env : ChatEnv) (req : ChatRequestBody)
    (hmsg : jsFalsyStr req.message = false) :
    (env.supabase = none →
      ∃ out, chatHandler cosDist env req = .ok out ∧ out.relevantChunks = [] ∧
        out.systemPrompt = chatPromptHead ++
          "No specific course material found for this query." ++ chatPromptTail) ∧
    (∀ msg : String, env.supabase.isSome = true → env.embedOutcome = .error msg →
      chatHandler cosDist env req =
        .error (.internal ("RAG retrieval error: " ++ msg))) := by
  constructor
  · intro hsb
    simp only [chatHandler, hmsg, hsb, Bool.false_eq_true, if_false,
      RAGService.retrieveRelevantChunks]
    exact ⟨_, rfl, rfl, rfl⟩
  · intro msg hsome herr
    obtain ⟨db, hdb⟩ := Option.isSome_iff_exists.mp hsome
    simp only [chatHandler, hmsg, hdb, herr, Bool.false_eq_true, if_false,
      RAGService.retrieveRelevantChunks]

/-- C1 (amended, witness): both halves at concrete inputs — Supabase
unconfigured gives a successful request with the placeholder prompt; a
concrete embedder connection error gives a failed request. -/
theorem c1_amended_witness :
    (∃ out, chatHandler cosD envNoSb reqW = .ok out ∧ out.relevantChunks = [] ∧
      out.systemPrompt = chatPromptHead ++
        "No specific course material found for this query." ++ chatPromptTail) ∧
    chatHandler cosD envEmbedDown reqW =
      .error (.internal ("RAG retrieval error: " ++
        "connect ECONNREFUSED 127.0.0.1:11434")) :=
  ⟨(c1_amended_soft_degrade_only_when_unconfigured cosD envNoSb reqW rfl).1 rfl,
   (c1_amended_soft_degrade_only_when_unconfigured cosD envEmbedDown reqW rfl).2
     "connect ECONNREFUSED 127.0.0.1:11434" rfl rfl⟩

/-- Any session row the `ensureSession` step inserts carries the request's
(possibly defaulted) student id. -/
theorem ensureSession_student_id (supabase : Option Db) (sid uid mode nowIso : String) :
    ∀ s ∈ ensureSession supabase sid uid mode nowIso, s.student_id = uid := by
  intro s hs
  rcases supabase with _ | db
  · simp [ensureSession] at hs
  · by_cases hc : (db.reachable && !(db.sessions.any (fun t => t.id == sid))) = true
    · simp only [ensureSession, hc, if_true, Option.mem_def, Option.some.injEq] at hs
      rw [← hs]
    · simp [ensureSession, hc] at hs

/-- C5: for every successfully completed chat request, the assembled message
sequence is exactly `[system] ++ (history pairs interleaved user/assistant,
in order) ++ [current user message]` — no reordering, no dropped pairs — and
the system prompt interpolates either the provenance-tagged chunk context or
the "no material found" placeholder when the chunk list is empty. -/
theorem c5_prompt_assembly
    (cosDist : List ℚ → List ℚ → ℚ) (env : ChatEnv) (req : ChatRequestBody)
    (out : ChatSuccess) (m : String) (hm : req.message = some m) (hm0 : m ≠ "")
    (h : chatHandler cosDist env req = .ok out) :
    out.messages = { role := Role.system, content := out.systemPrompt } ::
        ((chatHistoryRows env.supabase out.sessionId).flatMap (fun r =>
          [{ role := Role.user, content := r.user_message },
           { role := Role.assistant, content := r.assistant_response }]) ++
         [{ role := Role.user, content := m }]) ∧
    (out.relevantChunks = [] →
      out.systemPrompt = chatPromptHead ++
        "No specific course material found for this query." ++ chatPromptTail) ∧
    (out.relevantChunks ≠ [] →
      out.systemPrompt = chatPromptHead ++ buildContext out.relevantChunks ++
        chatPromptTail) := by
  have hmsg : jsFalsyStr req.message = false := by
    rw [hm]
    simp only [jsFalsyStr]
    rw [Bool.eq_false_iff]
    intro hemp
    exact hm0 ((String.isEmpty_iff _).mp hemp)
  simp only [chatHandler, hmsg, Bool.false_eq_true, if_false] at h
  rcases hr : RAGService.retrieveRelevantChunks cosDist env.supabase env.embedOutcome
      { mode := "tutoring", topK := 5 } with msg | chunks
  · rw [hr] at h
    exact absurd h (by simp)
  · rw [hr] at h
    injection h with h
    subst h
    refine ⟨by simp [hm], ?_, ?_⟩
    · intro hc
      simp only at hc
      subst hc
      rfl
    · intro hc
      simp only at hc ⊢
      rcases chunks with _ | ⟨c, rest⟩
      · exact absurd rfl hc
      · simp [jsOr, buildContext_ne_empty]

/-- C5 (witness): the property at a concrete healthy environment. -/
theorem c5_prompt_assembly_witness : ∃ out,
    chatHandler cosD envW reqW = .ok out ∧
    (out.messages = { role := Role.system, content := out.systemPrompt } ::
        ((chatHistoryRows envW.supabase out.sessionId).flatMap (fun r =>
          [{ role := Role.user, content := r.user_message },
           { role := Role.assistant, content := r.assistant_response }]) ++
         [{ role := Role.user, content := "What is requirements analysis?" }]) ∧
      (out.relevantChunks = [] →
        out.systemPrompt = chatPromptHead ++
          "No specific course material found for this query." ++ chatPromptTail) ∧
      (out.relevantChunks ≠ [] →
        out.systemPrompt = chatPromptHead ++ buildContext out.relevantChunks ++
          chatPromptTail)) :=
  ⟨_, rfl, c5_prompt_assembly cosD envW reqW _ "What is requirements analysis?"
    rfl (by decide) rfl⟩

/-- C8: the interaction row handed to the archive insert carries exactly the
concatenation, in order, of the fragments written to the client — also when
the generator's stream ended after only part of the expected fragments. -/
theorem c8_archive_equals_stream_writes
    (cosDist : List ℚ → List ℚ → ℚ) (env : ChatEnv) (req : ChatRequestBody)
    (out : ChatSuccess) (row : InteractionRow)
    (h : chatHandler cosDist env req = .ok out) (ha : out.archiveInsert = some row) :
    row.assistant_response = String.join out.writes ∧ out.writes = env.llmFragments := by
  cases hmsg : jsFalsyStr req.message with
  | true =>
    simp only [chatHandler, hmsg, if_true] at h
    exact absurd h (by simp)
  | false =>
    simp only [chatHandler, hmsg, Bool.false_eq_true, if_false] at h
    rcases hr : RAGService.retrieveRelevantChunks cosDist env.supabase env.embedOutcome
        { mode := "tutoring", topK := 5 } with msg | chunks
    · rw [hr] at h
      exact absurd h (by simp)
    · rw [hr] at h
      injection h with h
      subst h
      rcases hsb : env.supabase with _ | db
      · simp only [hsb] at ha
        exact absurd ha (by simp)
      · simp only [hsb, Option.some.injEq] at ha
        rw [← ha]
        exact ⟨rfl, rfl⟩

/-- C8 (witness): with a generator that produced three fragments before its
stream ended, the archived response is exactly their concatenation. -/
theorem c8_archive_witness : ∃ out row,
    chatHandler cosD envW reqW = .ok out ∧ out.archiveInsert = some row ∧
    row.assistant_response = String.join out.writes ∧
    out.writes = envW.llmFragments :=
  ⟨_, _, rfl, rfl, (c8_archive_equals_stream_writes cosD envW reqW _ _ rfl rfl).1,
    (c8_archive_equals_stream_writes cosD envW reqW _ _ rfl rfl).2⟩

/-- C10: when a chat or search request omits `studentId`, the literal string
"anonymous" is used as the student identifier, both for the auto-created
session's `student_id` and for the archived interaction's `student_id`. -/
theorem c10_anonymous_student_default (cosDist : List ℚ → List ℚ → ℚ) (env : ChatEnv) :
    (∀ req out, req.studentId = none → chatHandler cosDist env req = .ok out →
      out.userId = "anonymous" ∧ (∀ s ∈ out.createdSession, s.student_id = "anonymous") ∧
      (∀ r ∈ out.archiveInsert, r.student_id = "anonymous")) ∧
    (∀ req out, req.studentId = none → searchHandler cosDist env req = .ok out →
      out.userId = "anonymous" ∧ (∀ s ∈ out.createdSession, s.student_id = "anonymous") ∧
      (∀ r ∈ out.archiveInsert, r.student_id = "anonymous")) := by
  constructor
  · intro req out hstu h
    cases hmsg : jsFalsyStr req.message with
    | true =>
      simp only [chatHandler, hmsg, if_true] at h
      exact absurd h (by simp)
    | false =>
      simp only [chatHandler, hmsg, Bool.false_eq_true, if_false] at h
      rcases hr : RAGService.retrieveRelevantChunks cosDist env.supabase env.embedOutcome
          { mode := "tutoring", topK := 5 } with msg | chunks
      · rw [hr] at h
        exact absurd h (by simp)
      · rw [hr] at h
        injection h with h
        subst h
        refine ⟨by simp [hstu, jsFalsyStr], ?_, ?_⟩
        · simp only [hstu, jsFalsyStr, if_true]
          exact ensureSession_student_id _ _ _ _ _
        · intro r hrr
          rcases hsb : env.supabase with _ | db
          · simp only [hsb] at hrr
            simp at hrr
          · simp only [hsb, Option.mem_def, Option.some.injEq] at hrr
            rw [← hrr]
            simp [hstu, jsFalsyStr]
  · intro req out hstu h
    cases hq : jsFalsyStr req.query with
    | true =>
      simp only [searchHandler, hq, if_true] at h
      exact absurd h (by simp)
    | false =>
      simp only [searchHandler, hq, Bool.false_eq_true, if_false] at h
      rcases hsb : env.supabase with _ | db
      · simp only [hsb] at h
        exact absurd h (by simp)
      · simp only [hsb] at h
        rcases hr : RAGService.retrieveRelevantChunks cosDist (some db) env.embedOutcome
            { mode := "info_access", topK := req.maxResults.getD 5 } with msg | chunks
        · rw [hr] at h
          exact absurd h (by simp)
        · rw [hr] at h
          injection h with h
          subst h
          refine ⟨by simp [hstu, jsFalsyStr], ?_, ?_⟩
          · simp only [hstu, jsFalsyStr, if_true]
            exact ensureSession_student_id _ _ _ _ _
          · intro r hrr
            simp only [Option.mem_def, Option.some.injEq] at hrr
            rw [← hrr]
            simp [hstu, jsFalsyStr]

/-- C10 (witness): a concrete chat request and a concrete search request,
both without `studentId`, against a store where the session does not exist
yet: the auto-created rows and archive rows all say "anonymous". -/
theorem c10_anonymous_witness : ∃ outC outS,
    chatHandler cosD envW reqW = .ok outC ∧
    searchHandler cosD envW searchReqW = .ok outS ∧
    outC.userId = "anonymous" ∧ outS.userId = "anonymous" ∧
    (∀ s ∈ outC.createdSession, s.student_id = "anonymous") ∧
    (∀ s ∈ outS.createdSession, s.student_id = "anonymous") ∧
    (∀ r ∈ outC.archiveInsert, r.student_id = "anonymous") ∧
    (∀ r ∈ outS.archiveInsert, r.student_id = "anonymous") := by
  have h := c10_anonymous_student_default cosD envW
  have hC := h.1 reqW _ rfl rfl
  have hS := h.2 searchReqW _ rfl rfl
  exact ⟨_, _, rfl, rfl, hC.1, hS.1, hC.2.1, hS.2.1, hC.2.2, hS.2.2⟩

/-- chunky.js chunks are exactly the `CHUNK_SIZE`-wide slices taken at the
loop's start offsets. -/
theorem chunkTextGo_eq_starts (text : List Char) (i : Nat) :
    chunkTextGo text i =
      (chunkStartsGo text.length i).map (fun j => (text.drop j).take CHUNK_SIZE) := by
  by_cases h : i < text.length
  · rw [chunkTextGo, chunkStartsGo, dif_pos h, dif_pos h, List.map_cons,
      chunkTextGo_eq_starts text (i + (CHUNK_SIZE - CHUNK_OVERLAP))]
  · rw [chunkTextGo, chunkStartsGo, dif_neg h, dif_neg h, List.map_nil]
termination_by text.length - i
decreasing_by simp only [CHUNK_SIZE, CHUNK_OVERLAP]; omega

/-- The head of a start-offset list is the initial loop index. -/
theorem chunkStartsGo_head (len k : Nat) : ∀ j ∈ (chunkStartsGo len k).head?, j = k := by
  intro j hj
  rw [chunkStartsGo] at hj
  split at hj
  · simp only [List.head?_cons, Option.mem_def, Option.some.injEq] at hj
    exact hj.symm
  · simp at hj

/-- Consecutive start offsets always differ by exactly
`CHUNK_SIZE - CHUNK_OVERLAP`. -/
theorem chunkStartsGo_chain (len i : Nat) :
    (chunkStartsGo len i).Chain' (fun a b => b = a + (CHUNK_SIZE - CHUNK_OVERLAP)) := by
  by_cases h : i < len
  · rw [chunkStartsGo, dif_pos h, List.chain'_cons']
    exact ⟨fun y hy => chunkStartsGo_head len _ y hy,
      chunkStartsGo_chain len (i + (CHUNK_SIZE - CHUNK_OVERLAP))⟩
  · rw [chunkStartsGo, dif_neg h]
    exact List.chain'_nil
termination_by len - i
decreasing_by simp only [CHUNK_SIZE, CHUNK_OVERLAP]; omega

/-- `slice` on a replicated character list, for in-range indices. -/
theorem jsSlice_replicate (n : Nat) (a : Char) (x y : Int) (hx : 0 ≤ x) (hy : 0 ≤ y)
    (hxn : x ≤ (n : Int)) (hyn : y ≤ (n : Int)) :
    jsSlice (List.replicate n a) x y = List.replicate (y.toNat - x.toNat) a := by
  unfold jsSlice
  simp only [List.length_replicate]
  rw [if_neg (by omega), if_neg (by omega)]
  rw [min_eq_left hxn, min_eq_left hyn, max_eq_right hx, max_eq_right hy]
  rw [List.take_replicate, List.drop_replicate]
  congr 1
  omega

/-- `dropWhile` keeps a replicated list whose element fails the predicate. -/
theorem dropWhile_replicate_not (p : Char → Bool) (n : Nat) (a : Char) (h : p a = false) :
    List.dropWhile p (List.replicate n a) = List.replicate n a := by
  cases n with
  | zero => rfl
  | succ m =>
    rw [List.replicate_succ, List.dropWhile_cons, h]
    simp

/-- Trimming does not change a run of letters. -/
theorem jsTrim_replicate_a (n : Nat) :
    jsTrim (List.replicate n 'a') = List.replicate n 'a' := by
  unfold jsTrim
  rw [dropWhile_replicate_not _ _ _ (by decide), List.reverse_replicate,
    dropWhile_replicate_not _ _ _ (by decide), List.reverse_replicate]

/-- C6: every chunky.js chunk is the slice starting exactly
`CHUNK_SIZE - CHUNK_OVERLAP` characters after the previous chunk's start; in
particular a 2500-character text with chunkSize 800 and overlap 150 yields
exactly 4 chunks at offsets 0, 650, 1300 and 1950, the last of length 550 —
and `DocumentService.chunkText` on the same input and parameters produces the
same four chunks. -/
theorem c6_chunk_start_offsets :
    (∀ text : List Char,
      chunkText text =
        (chunkStarts text.length).map (fun j => (text.drop j).take CHUNK_SIZE) ∧
      (chunkStarts text.length).Chain'
        (fun a b => b = a + (CHUNK_SIZE - CHUNK_OVERLAP))) ∧
    chunkStarts 2500 = [0, 650, 1300, 1950] ∧
    (chunkText aText2500).map List.length = [800, 800, 800, 550] ∧
    DocumentService.chunkText aText2500 800 150 4 =
      some [List.replicate 800 'a', List.replicate 800 'a', List.replicate 800 'a',
            List.replicate 550 'a'] := by
  have h0 : chunkStartsGo 2500 0 = 0 :: chunkStartsGo 2500 650 := by
    rw [chunkStartsGo, dif_pos (by norm_num)]
    norm_num [CHUNK_SIZE, CHUNK_OVERLAP]
  have h650 : chunkStartsGo 2500 650 = 650 :: chunkStartsGo 2500 1300 := by
    rw [chunkStartsGo, dif_pos (by norm_num)]
    norm_num [CHUNK_SIZE, CHUNK_OVERLAP]
  have h1300 : chunkStartsGo 2500 1300 = 1300 :: chunkStartsGo 2500 1950 := by
    rw [chunkStartsGo, dif_pos (by norm_num)]
    norm_num [CHUNK_SIZE, CHUNK_OVERLAP]
  have h1950 : chunkStartsGo 2500 1950 = 1950 :: chunkStartsGo 2500 2600 := by
    rw [chunkStartsGo, dif_pos (by norm_num)]
    norm_num [CHUNK_SIZE, CHUNK_OVERLAP]
  have hstop : chunkStartsGo 2500 2600 = [] := by
    rw [chunkStartsGo, dif_neg (by norm_num)]
  have hs : chunkStarts 2500 = [0, 650, 1300, 1950] := by
    rw [chunkStarts, h0, h650, h1300, h1950, hstop]
  refine ⟨fun text => ⟨chunkTextGo_eq_starts text 0, chunkStartsGo_chain text.length 0⟩,
    hs, ?_, ?_⟩
  · have h1 := chunkTextGo_eq_starts aText2500 0
    have hlen : (aText2500 : List Char).length = 2500 := by simp [aText2500]
    rw [show chunkText aText2500 = chunkTextGo aText2500 0 from rfl, h1, hlen]
    rw [show chunkStartsGo 2500 0 = chunkStarts 2500 from rfl, hs]
    norm_num [aText2500, CHUNK_SIZE, List.drop_replicate, List.take_replicate, min_def]
  · have h1 : ∀ (chunks : List (List Char)) (start : Int) (fuel : Nat),
        start < 2500 →
        DocumentService.chunkTextGo (List.replicate 2500 'a') 800 150 chunks start (fuel + 1) =
          (let e := min (start + 800) 2500
           let chunk := jsSlice (List.replicate 2500 'a') start e
           let chunks1 :=
             if 0 < (jsTrim chunk).length then chunks ++ [jsTrim chunk] else chunks
           let start1 := e - 150
           let start2 :=
             if start1 ≤ (chunks1.length : Int) * (800 - 150)
             then (chunks1.length : Int) * (800 - 150) else start1
           if (2500 : Int) ≤ start2 then some chunks1
           else DocumentService.chunkTextGo (List.replicate 2500 'a') 800 150 chunks1 start2 fuel) := by
      intro chunks start fuel hlt
      conv_lhs => rw [DocumentService.chunkTextGo]
      norm_num [hlt]
    show DocumentService.chunkTextGo (List.replicate 2500 'a') 800 150 [] 0 4 = _
    rw [h1 _ _ _ (by norm_num)]
    norm_num [min_def]
    rw [jsSlice_replicate 2500 'a' 0 800 (by norm_num) (by norm_num) (by norm_num) (by norm_num)]
    norm_num [jsTrim_replicate_a, Int.toNat_ofNat]
    rw [h1 _ _ _ (by norm_num)]
    norm_num [min_def]
    rw [jsSlice_replicate 2500 'a' 650 1450 (by norm_num) (by norm_num) (by norm_num) (by norm_num)]
    norm_num [jsTrim_replicate_a, Int.toNat_ofNat]
    rw [h1 _ _ _ (by norm_num)]
    norm_num [min_def]
    rw [jsSlice_replicate 2500 'a' 1300 2100 (by norm_num) (by norm_num) (by norm_num) (by norm_num)]
    norm_num [jsTrim_replicate_a, Int.toNat_ofNat]
    rw [h1 _ _ _ (by norm_num)]
    norm_num [min_def]
    rw [jsSlice_replicate 2500 'a' 1950 2500 (by norm_num) (by norm_num) (by norm_num) (by norm_num)]
    norm_num [jsTrim_replicate_a, Int.toNat_ofNat]
    omega

/-- C3 (divergence evidence): degenerate chunking input raises no
`InvalidChunkingConfig` error anywhere — empty text terminates and returns an
empty chunk list in both chunkers, while `overlap = chunkSize` on non-empty
non-whitespace text makes `DocumentService.chunkText` loop forever: the
clamp commented `Prevent infinite loop if overlap >= chunkSize` pins `start`
at 0 on every pass, so no amount of fuel completes the loop. -/
theorem c3_degenerate_chunking_no_error_and_loop :
    chunkText [] = [] ∧
    (∀ fuel, DocumentService.chunkText [] 1000 200 fuel = some []) ∧
    (∀ fuel chunks, DocumentService.chunkTextGo ['a', 'a'] 1 1 chunks 0 fuel = none) := by
  refine ⟨?_, ?_, ?_⟩
  · show chunkTextGo [] 0 = []
    rw [chunkTextGo, dif_neg (by simp)]
  · intro fuel
    cases fuel <;> rfl
  · intro fuel
    induction fuel with
    | zero => intro chunks; rfl
    | succ n ih =>
      intro chunks
      have hstep : DocumentService.chunkTextGo ['a', 'a'] 1 1 chunks 0 (n + 1) =
          DocumentService.chunkTextGo ['a', 'a'] 1 1 (chunks ++ [['a']]) 0 n := by
        conv_lhs => rw [DocumentService.chunkTextGo]
        norm_num [min_def]
        norm_num [show jsSlice ['a', 'a'] 0 1 = ['a'] from rfl,
          show jsTrim ['a'] = ['a'] from rfl]
      rw [hstep]
      exact ih (chunks ++ [['a']])

/-- Every chunk `DocumentService.chunkTextGo` ever appends is non-empty (it
is pushed only when its trimmed form has positive length). -/
theorem docChunkGo_chunks_nonempty (text : List Char) (cs ov : Int) :
    ∀ (fuel : Nat) (chunks : List (List Char)) (start : Int) (out : List (List Char)),
      (∀ c ∈ chunks, c ≠ []) →
      DocumentService.chunkTextGo text cs ov chunks start fuel = some out →
      ∀ c ∈ out, c ≠ [] := by
  intro fuel
  induction fuel with
  | zero =>
    intro chunks start out hinv hout
    rw [DocumentService.chunkTextGo] at hout
    split at hout
    · exact absurd hout (by simp)
    · rw [Option.some.injEq] at hout
      subst hout
      exact hinv
  | succ n ih =>
    intro chunks start out hinv hout
    rw [DocumentService.chunkTextGo] at hout
    split at hout
    case isTrue hlt =>
      simp only [] at hout
      by_cases hp : 0 < (jsTrim (jsSlice text start
          (min (start + cs) (text.length : Int)))).length
      · rw [if_pos hp] at hout
        have hinv1 : ∀ c ∈ chunks ++ [jsTrim (jsSlice text start
            (min (start + cs) (text.length : Int)))], c ≠ [] := by
          intro c hc
          rcases List.mem_append.mp hc with h1 | h2
          · exact hinv c h1
          · rw [List.mem_singleton] at h2
            subst h2
            intro hnil
            rw [hnil] at hp
            simp at hp
        split at hout <;> split at hout <;>
          first
          | (rw [Option.some.injEq] at hout
             subst hout
             exact hinv1)
          | exact ih _ _ out hinv1 hout
      · rw [if_neg hp] at hout
        split at hout <;> split at hout <;>
          first
          | (rw [Option.some.injEq] at hout
             subst hout
             exact hinv)
          | exact ih _ _ out hinv hout
    case isFalse =>
      rw [Option.some.injEq] at hout
      subst hout
      exact hinv

/-- C7 (amended): for non-empty text the chunky.js chunker yields a non-empty
chunk sequence whose chunks all have length at most `CHUNK_SIZE`, but a chunk
need not be non-empty after trimming (it may be all whitespace);
`DocumentService.chunkText` only ever emits non-empty (pre-trimmed) chunks
on terminating runs. -/
theorem c7_amended_chunk_bounds (text : List Char) (h : text ≠ []) :
    chunkText text ≠ [] ∧
    (∀ c ∈ chunkText text, c.length ≤ CHUNK_SIZE) ∧
    (∀ cs ov fuel out, DocumentService.chunkText text cs ov fuel = some out →
      ∀ c ∈ out, c ≠ []) := by
  refine ⟨?_, ?_, ?_⟩
  · show chunkTextGo text 0 ≠ []
    rw [chunkTextGo, dif_pos (List.length_pos.mpr h)]
    simp
  · intro c hc
    rw [show chunkText text = chunkTextGo text 0 from rfl, chunkTextGo_eq_starts] at hc
    rw [List.mem_map] at hc
    obtain ⟨j, _, rfl⟩ := hc
    exact List.length_take_le _ _
  · intro cs ov fuel out hout
    exact docChunkGo_chunks_nonempty text cs ov fuel [] 0 out (by simp) hout

/-- C7 (amended, witness): the bounds at the one-character text. -/
theorem c7_amended_chunk_bounds_witness :
    chunkText ['a'] ≠ [] ∧
    (∀ c ∈ chunkText ['a'], c.length ≤ CHUNK_SIZE) ∧
    (∀ cs ov fuel out, DocumentService.chunkText ['a'] cs ov fuel = some out →
      ∀ c ∈ out, c ≠ []) :=
  c7_amended_chunk_bounds ['a'] (by decide)

/-- C7 (counterexample): chunky.js on the valid input `'a'` followed by 650
spaces produces the chunk consisting of one space, which is empty after
trimming — refuting "every chunk is non-empty after trimming whitespace". -/
theorem c7_counterexample_whitespace_chunk :
    [' '] ∈ chunkText wsTail651 ∧ jsTrim [' '] = [] := by
  constructor
  · have h1 := chunkTextGo_eq_starts wsTail651 0
    have hlen : (wsTail651 : List Char).length = 651 := by simp [wsTail651]
    have h0 : chunkStartsGo 651 0 = 0 :: chunkStartsGo 651 650 := by
      rw [chunkStartsGo, dif_pos (by norm_num)]
      norm_num [CHUNK_SIZE, CHUNK_OVERLAP]
    have h650 : chunkStartsGo 651 650 = 650 :: chunkStartsGo 651 1300 := by
      rw [chunkStartsGo, dif_pos (by norm_num)]
      norm_num [CHUNK_SIZE, CHUNK_OVERLAP]
    have hstop : chunkStartsGo 651 1300 = [] := by
      rw [chunkStartsGo, dif_neg (by norm_num)]
    rw [show chunkText wsTail651 = chunkTextGo wsTail651 0 from rfl, h1, hlen, h0, h650,
      hstop]
    decide
  · rfl
